import Mathlib

/-!
Shallow embedding of `src/mcp_server.py` (docs-mcp-server): data model,
registries, the two POST handlers `search_documentation` and
`get_code_examples`, and the module-level documentation cache.

HTML parsing is modelled at the level of the selector results the program
actually uses: a fetched document is represented by the lists that
`soup.select("ul.search li")`, `soup.select(".result-list .result")` and
`soup.select("pre")` would return, together with the per-element data the
handlers read (anchor href/text, `.context` / `.excerpt` snippet text, and
for a `pre` block its text and the text of the nearest preceding heading).
The outbound HTTP fetch is an explicit input: either a response carrying a
status code and a parsed document, or an exception message (network-level
failure), matching the `try`/`except` structure of the handlers.
-/

namespace DocsMcp

/-- Query model `DocumentationQuery` (pydantic): `max_results: Optional[int] = 5`. -/
structure DocumentationQuery where
  library : String
  term : String
  max_results : Option Int := some 5
deriving DecidableEq, Repr

/-- Query model `CodeExampleQuery` (pydantic): `max_examples: Optional[int] = 3`. -/
structure CodeExampleQuery where
  library : String
  function : String
  language : String := "python"
  max_examples : Option Int := some 3
deriving DecidableEq, Repr

/-- One record appended by the documentation extraction loops. -/
structure SearchRecord where
  title : String
  url : String
  description : String
deriving DecidableEq, Repr

/-- One record appended by the code-example extraction loop. -/
structure ExampleRecord where
  title : String
  code : String
  language : String
deriving DecidableEq, Repr

/-- Response model `DocumentationResult`. -/
structure DocumentationResult where
  library : String
  term : String
  results : List SearchRecord
  error : Option String := none
deriving DecidableEq, Repr

/-- Response model `CodeExampleResult`. -/
structure CodeExampleResult where
  library : String
  function : String
  examples : List ExampleRecord
  error : Option String := none
deriving DecidableEq, Repr

/-- An anchor element: `link.get("href")` and `link.text`. -/
structure SoupLink where
  href : String
  text : String
deriving DecidableEq, Repr

/-- A search-result item: its optional first anchor (`select_one("a")`) and the
raw text of its optional `.context` / `.excerpt` child. -/
structure SearchItem where
  link : Option SoupLink
  context : Option String := none
  excerpt : Option String := none
deriving DecidableEq, Repr

/-- A `pre` element: its raw text, and the text of the nearest preceding
heading element of any level (`find_previous` over h1 through h6), if one exists. -/
structure CodeBlock where
  text : String
  prevHeading : Option String := none
deriving DecidableEq, Repr

/-- A parsed HTML document, given by the results of the three CSS selector
queries the handlers perform on it. -/
structure Soup where
  selectUlSearchLi : List SearchItem := []
  selectResultListResult : List SearchItem := []
  selectPre : List CodeBlock := []
deriving DecidableEq, Repr

/-- Outcome of the outbound GET: a response with a status code and parsed
body, or an exception raised during the fetch (DNS failure, refused
connection, timeout), which the handler catches. -/
inductive Fetched where
  | exn (msg : String)
  | resp (status : Nat) (soup : Soup)
deriving DecidableEq, Repr

/-- The module-level `DOC_CACHE` dict, as an association list where the most
recent insertion for a key shadows older ones. -/
abbrev Cache := List (String × DocumentationResult)

/-- Dict lookup: `DOC_CACHE[k]` / `k in DOC_CACHE`. -/
def Cache.get (c : Cache) (k : String) : Option DocumentationResult :=
  (c.find? (fun p => p.1 = k)).map (fun p => p.2)

/-- Dict `.get` on a static string-to-string mapping. -/
def dictGet (m : List (String × String)) (k : String) : Option String :=
  (m.find? (fun p => p.1 = k)).map (fun p => p.2)

/-- Registry `DOC_SOURCES`: documentation sources with their base URLs. -/
def DOC_SOURCES : List (String × String) :=
  [("python", "https://docs.python.org/3/"),
   ("javascript", "https://developer.mozilla.org/en-US/docs/Web/JavaScript/"),
   ("nodejs", "https://nodejs.org/api/"),
   ("react", "https://reactjs.org/docs/"),
   ("tensorflow", "https://www.tensorflow.org/api_docs/"),
   ("pandas", "https://pandas.pydata.org/docs/"),
   ("django", "https://docs.djangoproject.com/en/stable/"),
   ("flask", "https://flask.palletsprojects.com/en/latest/"),
   ("fastapi", "https://fastapi.tiangolo.com/"),
   ("numpy", "https://numpy.org/doc/stable/"),
   ("pytorch", "https://pytorch.org/docs/stable/")]

/-- Registry `CODE_EXAMPLE_SOURCES`: code search URL templates with one `\x7b\x7d` slot. -/
def CODE_EXAMPLE_SOURCES : List (String × String) :=
  [("python", "https://docs.python.org/3/search.html?q=\x7b\x7d&check_keywords=yes&area=default"),
   ("javascript", "https://developer.mozilla.org/en-US/search?q=\x7b\x7d"),
   ("nodejs", "https://nodejs.org/api/all.html#all_\x7b\x7d")]

/-- Python list slicing `xs[:n]`: a non-negative bound takes a prefix, a
negative bound drops that many elements from the end, `None` takes all. -/
def pySliceTo (n : Option Int) (xs : List α) : List α :=
  match n with
  | none => xs
  | some n => if 0 ≤ n then xs.take n.toNat else xs.take ((xs.length : Int) + n).toNat

/-- Containment of one character list in another at any position. -/
def subChars (pat : List Char) : List Char → Bool
  | [] => pat.isEmpty
  | c :: cs => pat.isPrefixOf (c :: cs) || subChars pat cs

/-- Python substring test `pat in s` (the empty pattern is always contained). -/
def strContainsSubstr (s pat : String) : Bool :=
  subChars pat.data s.data

/-- Python `s.lower()`, restricted to the ASCII case mapping the registry keys
and library names of this program exercise. -/
def pyLower (s : String) : String :=
  ⟨s.data.map Char.toLower⟩

/-- Python `s.strip()`: remove leading and trailing whitespace. -/
def pyStrip (s : String) : String :=
  ⟨((s.data.dropWhile Char.isWhitespace).reverse.dropWhile Char.isWhitespace).reverse⟩

/-- Python `template.format(arg)` for templates with `\x7b\x7d` slots. -/
def pyFormat (template arg : String) : String :=
  String.intercalate arg (template.splitOn "\x7b\x7d")

/-- The documentation cache key: `f"\x7bquery.library\x7d:\x7bquery.term\x7d"`. -/
def docCacheKey (q : DocumentationQuery) : String :=
  q.library ++ ":" ++ q.term

/-- The python-documentation extraction loop body over `ul.search li` items:
skip items without an anchor, otherwise append title / absolute url /
stripped `.context` snippet (empty when absent). -/
def pythonDocStep (acc : List SearchRecord) (item : SearchItem) : List SearchRecord :=
  match item.link with
  | some link =>
      acc ++ [{ title := pyStrip link.text,
                url := "https://docs.python.org/3/" ++ link.href,
                description := (item.context.map pyStrip).getD ("") }]
  | none => acc

/-- The javascript-documentation extraction loop body over `.result-list
.result` items: href is resolved against the MDN host root, snippet from
`.excerpt`. -/
def jsDocStep (acc : List SearchRecord) (item : SearchItem) : List SearchRecord :=
  match item.link with
  | some link =>
      acc ++ [{ title := pyStrip link.text,
                url := "https://developer.mozilla.org" ++ link.href,
                description := (item.excerpt.map pyStrip).getD ("") }]
  | none => acc

/-- Handler `search_documentation` (`POST /search_docs`), as a function of the
query, the current `DOC_CACHE` state, and the fetch outcome; returns the
response together with the new cache state. -/
def search_documentation (query : DocumentationQuery) (cache : Cache)
    (fetch : Fetched) : DocumentationResult × Cache :=
  let cache_key := docCacheKey query
  match cache.get cache_key with
  | some cached => (cached, cache)
  | none =>
    match dictGet DOC_SOURCES (pyLower query.library) with
    | none =>
      ({ library := query.library, term := query.term, results := [],
         error := some ("Documentation for " ++ query.library ++ " is not available") },
       cache)
    | some base_url =>
      let search_url :=
        if pyLower query.library = "python" then
          "https://docs.python.org/3/search.html?q=" ++ query.term
            ++ "&check_keywords=yes&area=default"
        else if pyLower query.library = "javascript" then
          "https://developer.mozilla.org/en-US/search?q=" ++ query.term
        else base_url ++ "search.html?q=" ++ query.term
      let _ := search_url
      match fetch with
      | .exn msg =>
        ({ library := query.library, term := query.term, results := [],
           error := some msg }, cache)
      | .resp status soup =>
        if status ≠ 200 then
          ({ library := query.library, term := query.term, results := [],
             error := some ("Failed to fetch documentation: " ++ toString status) },
           cache)
        else
          let results :=
            if pyLower query.library = "python" then
              (pySliceTo query.max_results soup.selectUlSearchLi).foldl pythonDocStep []
            else if pyLower query.library = "javascript" then
              (pySliceTo query.max_results soup.selectResultListResult).foldl jsDocStep []
            else []
          let result : DocumentationResult :=
            { library := query.library, term := query.term, results := results,
              error := none }
          (result, (cache_key, result) :: cache)

/-- The python code-example extraction loop body: keep a `pre` block when its
text contains the function name, titling it by the stripped nearest preceding
heading, or "Example" when there is none. -/
def pythonExampleStep (function : String) (acc : List ExampleRecord)
    (code_block : CodeBlock) : List ExampleRecord :=
  if strContainsSubstr code_block.text function then
    acc ++ [{ title := (code_block.prevHeading.map pyStrip).getD ("Example"),
              code := pyStrip code_block.text,
              language := "python" }]
  else acc

/-- Handler `get_code_examples` (`POST /code_examples`), as a function of the
query and the fetch outcome; this path has no cache. -/
def get_code_examples (query : CodeExampleQuery) (fetch : Fetched) :
    CodeExampleResult :=
  let language := pyLower query.language
  match dictGet CODE_EXAMPLE_SOURCES language with
  | none =>
    { library := query.library, function := query.function, examples := [],
      error := some ("Code examples for " ++ language ++ " are not available") }
  | some template =>
    let search_url := pyFormat template query.function
    let _ := search_url
    match fetch with
    | .exn msg =>
      { library := query.library, function := query.function, examples := [],
        error := some msg }
    | .resp status soup =>
      if status ≠ 200 then
        { library := query.library, function := query.function, examples := [],
          error := some ("Failed to fetch code examples: " ++ toString status) }
      else
        let examples :=
          if language = "python" then
            (pySliceTo query.max_examples soup.selectPre).foldl
              (pythonExampleStep query.function) []
          else []
        { library := query.library, function := query.function,
          examples := examples, error := none }

/-- Cache states reachable from the empty `DOC_CACHE` by any sequence of
`search_documentation` calls. -/
inductive ReachableCache : Cache → Prop where
  | nil : ReachableCache []
  | step (q : DocumentationQuery) (f : Fetched) {c : Cache} :
      ReachableCache c → ReachableCache (search_documentation q c f).2

/-- The record list computed by the documentation extraction branch on a
status-200 response. -/
def docResults (q : DocumentationQuery) (soup : Soup) : List SearchRecord :=
  if pyLower q.library = "python" then
    (pySliceTo q.max_results soup.selectUlSearchLi).foldl pythonDocStep []
  else if pyLower q.library = "javascript" then
    (pySliceTo q.max_results soup.selectResultListResult).foldl jsDocStep []
  else []

/-- The example list computed by the code-example extraction branch on a
status-200 response. -/
def codeExamplesOf (q : CodeExampleQuery) (soup : Soup) : List ExampleRecord :=
  if pyLower q.language = "python" then
    (pySliceTo q.max_examples soup.selectPre).foldl (pythonExampleStep q.function) []
  else []

/-- The extraction the python code-example branch performs, written directly:
take the first `max_examples` preformatted blocks, and among those keep the
blocks whose text contains the function name, titling each by the stripped
nearest preceding heading, or "Example" when there is none. -/
def cappedPythonExamples (fn : String) (max_examples : Option Int)
    (blocks : List CodeBlock) : List ExampleRecord :=
  (pySliceTo max_examples blocks).filterMap fun code_block =>
    if strContainsSubstr code_block.text fn then
      some { title := (code_block.prevHeading.map pyStrip).getD ("Example"),
             code := pyStrip code_block.text, language := "python" }
    else none

/-- Modelled from the spec wording for the python code-example branch: keep
the matching blocks among all preformatted blocks first, then return the first
`max_examples` of the kept blocks, so that a non-matching block between two
matching ones consumes no slot. -/
def specPythonExamples (fn : String) (max_examples : Option Int)
    (blocks : List CodeBlock) : List ExampleRecord :=
  (pySliceTo max_examples
      (blocks.filter fun code_block => strContainsSubstr code_block.text fn)).map
    fun code_block =>
      { title := (code_block.prevHeading.map pyStrip).getD ("Example"),
        code := pyStrip code_block.text, language := "python" }

/-! Concrete fixtures used by witnesses and counterexamples. -/

/-- A fixture document: three python search items (one without an anchor), one
MDN result, and three `pre` blocks of which the first and third contain
"foo" while the middle one does not. -/
def wSoup : Soup :=
  { selectUlSearchLi :=
      [ { link := some { href := "library/stdtypes.html", text := " Built-in Types " },
          context := some " Lists are sequences " },
        { link := none },
        { link := some { href := "tutorial/datastructures.html", text := "Data Structures" } } ],
    selectResultListResult :=
      [ { link := some { href := "/en-US/docs/Web/JavaScript/Reference", text := "Reference" },
          excerpt := some " JS reference " } ],
    selectPre :=
      [ { text := "foo()", prevHeading := some " First " },
        { text := "print(1)" },
        { text := "y = foo(2)" } ] }

/-- A fixture documentation query for the python library. -/
def qDoc : DocumentationQuery :=
  { library := "python", term := "list", max_results := some 5 }

/-- A fixture code-example query with `max_examples = 2`. -/
def qCode : CodeExampleQuery :=
  { library := "python", function := "foo", language := "python", max_examples := some 2 }

/-- A documentation query whose term contains a colon. -/
def qColon : DocumentationQuery :=
  { library := "python", term := "x:y", max_results := some 5 }

/-- An unrecognized-library query whose cache key collides with `qColon`. -/
def qColliding : DocumentationQuery :=
  { library := "python:x", term := "y", max_results := some 5 }

/-- A fixture cached result. -/
def rFixture : DocumentationResult :=
  { library := "python", term := "list", results := [], error := none }

/-- A fixture documentation query with upper-case library spelling. -/
def qUpper : DocumentationQuery :=
  { library := "Python", term := "list", max_results := some 5 }

/-- The result a successful fixture call computes and stores. -/
def rStored : DocumentationResult :=
  (search_documentation qDoc [] (.resp 200 wSoup)).1

/-! Path lemmas: one equation per control-flow path of each handler. -/

theorem search_documentation_hit (q : DocumentationQuery) (c : Cache) (f : Fetched)
    (r : DocumentationResult) (h : Cache.get c (docCacheKey q) = some r) :
    search_documentation q c f = (r, c) := by
  unfold search_documentation
  simp [h]

theorem search_documentation_noreg (q : DocumentationQuery) (c : Cache) (f : Fetched)
    (hmiss : Cache.get c (docCacheKey q) = none)
    (hreg : dictGet DOC_SOURCES (pyLower q.library) = none) :
    search_documentation q c f =
      ({ library := q.library, term := q.term, results := [],
         error := some ("Documentation for " ++ q.library ++ " is not available") }, c) := by
  unfold search_documentation
  simp [hmiss, hreg]

theorem search_documentation_exn (q : DocumentationQuery) (c : Cache) (m u : String)
    (hmiss : Cache.get c (docCacheKey q) = none)
    (hreg : dictGet DOC_SOURCES (pyLower q.library) = some u) :
    search_documentation q c (.exn m) =
      ({ library := q.library, term := q.term, results := [], error := some m }, c) := by
  unfold search_documentation
  simp [hmiss, hreg]

theorem search_documentation_badstatus (q : DocumentationQuery) (c : Cache)
    (status : Nat) (soup : Soup) (u : String)
    (hmiss : Cache.get c (docCacheKey q) = none)
    (hreg : dictGet DOC_SOURCES (pyLower q.library) = some u)
    (hstatus : status ≠ 200) :
    search_documentation q c (.resp status soup) =
      ({ library := q.library, term := q.term, results := [],
         error := some ("Failed to fetch documentation: " ++ toString status) }, c) := by
  unfold search_documentation
  simp [hmiss, hreg, hstatus]

theorem search_documentation_success (q : DocumentationQuery) (c : Cache)
    (soup : Soup) (u : String)
    (hmiss : Cache.get c (docCacheKey q) = none)
    (hreg : dictGet DOC_SOURCES (pyLower q.library) = some u) :
    search_documentation q c (.resp 200 soup) =
      ({ library := q.library, term := q.term, results := docResults q soup,
         error := none },
       (docCacheKey q,
        { library := q.library, term := q.term, results := docResults q soup,
          error := none }) :: c) := by
  unfold search_documentation docResults
  simp [hmiss, hreg]

theorem get_code_examples_noreg (q : CodeExampleQuery) (f : Fetched)
    (hreg : dictGet CODE_EXAMPLE_SOURCES (pyLower q.language) = none) :
    get_code_examples q f =
      { library := q.library, function := q.function, examples := [],
        error := some ("Code examples for " ++ pyLower q.language ++ " are not available") } := by
  unfold get_code_examples
  simp [hreg]

theorem get_code_examples_exn (q : CodeExampleQuery) (m t : String)
    (hreg : dictGet CODE_EXAMPLE_SOURCES (pyLower q.language) = some t) :
    get_code_examples q (.exn m) =
      { library := q.library, function := q.function, examples := [],
        error := some m } := by
  unfold get_code_examples
  simp [hreg]

theorem get_code_examples_badstatus (q : CodeExampleQuery) (status : Nat)
    (soup : Soup) (t : String)
    (hreg : dictGet CODE_EXAMPLE_SOURCES (pyLower q.language) = some t)
    (hstatus : status ≠ 200) :
    get_code_examples q (.resp status soup) =
      { library := q.library, function := q.function, examples := [],
        error := some ("Failed to fetch code examples: " ++ toString status) } := by
  unfold get_code_examples
  simp [hreg, hstatus]

theorem get_code_examples_success (q : CodeExampleQuery) (soup : Soup) (t : String)
    (hreg : dictGet CODE_EXAMPLE_SOURCES (pyLower q.language) = some t) :
    get_code_examples q (.resp 200 soup) =
      { library := q.library, function := q.function,
        examples := codeExamplesOf q soup, error := none } := by
  unfold get_code_examples codeExamplesOf
  simp [hreg]

/-! Generic helper lemmas. -/

theorem subChars_append_self (a pat : List Char) : subChars pat (a ++ pat) = true := by
  induction a with
  | nil =>
    cases pat with
    | nil => rfl
    | cons c cs => simp [subChars, List.isPrefixOf_iff_prefix]
  | cons c a ih => simp [subChars, ih]

theorem strContainsSubstr_append (a b : String) :
    strContainsSubstr (a ++ b) b = true := by
  show subChars b.data (a ++ b).data = true
  have h : (a ++ b).data = a.data ++ b.data := rfl
  rw [h]
  exact subChars_append_self a.data b.data

theorem foldl_length_le {α β : Type} (step : List β → α → List β)
    (hstep : ∀ acc x, (step acc x).length ≤ acc.length + 1) :
    ∀ (xs : List α) (acc : List β), (xs.foldl step acc).length ≤ acc.length + xs.length := by
  intro xs
  induction xs with
  | nil => intro acc; simp
  | cons x xs ih =>
    intro acc
    have h1 := ih (step acc x)
    have h2 := hstep acc x
    simp only [List.foldl_cons, List.length_cons]
    omega

theorem pythonDocStep_length (acc : List SearchRecord) (item : SearchItem) :
    (pythonDocStep acc item).length ≤ acc.length + 1 := by
  cases h : item.link <;> simp [pythonDocStep, h]

theorem jsDocStep_length (acc : List SearchRecord) (item : SearchItem) :
    (jsDocStep acc item).length ≤ acc.length + 1 := by
  cases h : item.link <;> simp [jsDocStep, h]

theorem pythonExampleStep_length (fn : String) (acc : List ExampleRecord)
    (cb : CodeBlock) : (pythonExampleStep fn acc cb).length ≤ acc.length + 1 := by
  by_cases h : strContainsSubstr cb.text fn <;> simp [pythonExampleStep, h]

theorem pySliceTo_length_le (n : Int) (hn : 0 ≤ n) (xs : List α) :
    ((pySliceTo (some n) xs).length : Int) ≤ n := by
  simp only [pySliceTo, if_pos hn]
  have h : (xs.take n.toNat).length ≤ n.toNat := by
    simp [List.length_take]
  omega

theorem docResults_length_le (q : DocumentationQuery) (soup : Soup) (n : Int)
    (hmax : q.max_results = some n) (hn : 0 ≤ n) :
    ((docResults q soup).length : Int) ≤ n := by
  unfold docResults
  rw [hmax]
  split
  · have h1 := foldl_length_le pythonDocStep pythonDocStep_length
      (pySliceTo (some n) soup.selectUlSearchLi) []
    have h2 := pySliceTo_length_le n hn soup.selectUlSearchLi
    simp only [List.length_nil] at h1
    omega
  · split
    · have h1 := foldl_length_le jsDocStep jsDocStep_length
        (pySliceTo (some n) soup.selectResultListResult) []
      have h2 := pySliceTo_length_le n hn soup.selectResultListResult
      simp only [List.length_nil] at h1
      omega
    · simpa using hn

theorem codeExamplesOf_length_le (q : CodeExampleQuery) (soup : Soup) (n : Int)
    (hmax : q.max_examples = some n) (hn : 0 ≤ n) :
    ((codeExamplesOf q soup).length : Int) ≤ n := by
  unfold codeExamplesOf
  rw [hmax]
  split
  · have h1 := foldl_length_le (pythonExampleStep q.function)
      (pythonExampleStep_length q.function) (pySliceTo (some n) soup.selectPre) []
    have h2 := pySliceTo_length_le n hn soup.selectPre
    simp only [List.length_nil] at h1
    omega
  · simpa using hn

/-- Looking the fresh key up in the freshly extended cache. -/
theorem Cache.get_cons_self (c : Cache) (k : String) (r : DocumentationResult) :
    Cache.get ((k, r) :: c) k = some r := by
  simp [Cache.get, List.find?]

/-- Looking a different key up in an extended cache. -/
theorem Cache.get_cons_ne (c : Cache) (k k2 : String) (r : DocumentationResult)
    (h : k ≠ k2) : Cache.get ((k, r) :: c) k2 = Cache.get c k2 := by
  simp [Cache.get, List.find?, h]

/-- Exhaustive shape of one `search_documentation` call: the cache is either
unchanged, or the fetch returned status 200 past a successful registry lookup
and the call prepended its own error-free result under its own key. -/
theorem search_documentation_shape (q : DocumentationQuery) (c : Cache) (f : Fetched) :
    (search_documentation q c f).2 = c ∨
    (∃ soup, f = .resp 200 soup ∧
      (search_documentation q c f).1 =
        { library := q.library, term := q.term, results := docResults q soup,
          error := none } ∧
      (search_documentation q c f).2 = (docCacheKey q, (search_documentation q c f).1) :: c ∧
      (dictGet DOC_SOURCES (pyLower q.library)).isSome) := by
  cases hmiss : Cache.get c (docCacheKey q) with
  | some r => left; rw [search_documentation_hit q c f r hmiss]
  | none =>
    cases hreg : dictGet DOC_SOURCES (pyLower q.library) with
    | none => left; rw [search_documentation_noreg q c f hmiss hreg]
    | some u =>
      cases f with
      | exn m => left; rw [search_documentation_exn q c m u hmiss hreg]
      | resp status soup =>
        by_cases hstatus : status = 200
        · subst hstatus
          right
          refine ⟨soup, rfl, ?_, ?_, ?_⟩
          · rw [search_documentation_success q c soup u hmiss hreg]
          · rw [search_documentation_success q c soup u hmiss hreg]
          · rfl
        · left; rw [search_documentation_badstatus q c status soup u hmiss hreg hstatus]

/-- Results stored in any reachable cache carry no error and a registered
library name. -/
theorem reachable_cache_entries {c : Cache} (h : ReachableCache c) :
    ∀ p ∈ c, p.2.error = none ∧ (dictGet DOC_SOURCES (pyLower p.2.library)).isSome := by
  induction h with
  | nil => intro p hp; simp at hp
  | step q f hc ih =>
    rename_i c0
    intro p hp
    rcases search_documentation_shape q c0 f with heq | ⟨soup, _, hres, heq, hregsome⟩
    · rw [heq] at hp; exact ih p hp
    · rw [heq] at hp
      rcases List.mem_cons.mp hp with hphead | hptail
      · subst hphead
        rw [hres]
        exact ⟨rfl, by simpa using hregsome⟩
      · exact ih p hptail

/-- A cached result found in a reachable cache carries no error. -/
theorem reachable_cache_get {c : Cache} (h : ReachableCache c) (k : String)
    (r : DocumentationResult) (hget : Cache.get c k = some r) : r.error = none := by
  unfold Cache.get at hget
  cases hfind : c.find? (fun p => p.1 = k) with
  | none => rw [hfind] at hget; exact absurd hget (by simp)
  | some p =>
    rw [hfind] at hget
    have hp2 : p.2 = r := by
      simpa using hget
    have hmem := List.mem_of_find?_eq_some hfind
    have herr := (reachable_cache_entries h p hmem).1
    rw [← hp2]
    exact herr

/-- Distinct library names give distinct cache keys when the terms agree. -/
theorem docCacheKey_ne_of_library_ne (q1 q2 : DocumentationQuery)
    (hlib : q1.library ≠ q2.library) (hterm : q1.term = q2.term) :
    docCacheKey q1 ≠ docCacheKey q2 := by
  intro hkey
  apply hlib
  unfold docCacheKey at hkey
  have hdata := congrArg String.data hkey
  have h1 : (q1.library ++ ":" ++ q1.term).data
      = q1.library.data ++ (":".data ++ q1.term.data) := by
    simp [String.data_append]
  have h2 : (q2.library ++ ":" ++ q2.term).data
      = q2.library.data ++ (":".data ++ q2.term.data) := by
    simp [String.data_append]
  rw [h1, h2, hterm] at hdata
  exact String.ext (List.append_cancel_right hdata)

/-- Unrolling the python code-example accumulation loop into a filter-map. -/
theorem foldl_pythonExampleStep (fn : String) :
    ∀ (xs : List CodeBlock) (acc : List ExampleRecord),
      xs.foldl (pythonExampleStep fn) acc
        = acc ++ xs.filterMap (fun code_block =>
            if strContainsSubstr code_block.text fn then
              some { title := (code_block.prevHeading.map pyStrip).getD ("Example"),
                     code := pyStrip code_block.text, language := "python" }
            else none) := by
  intro xs
  induction xs with
  | nil => intro acc; simp
  | cons x xs ih =>
    intro acc
    by_cases h : strContainsSubstr x.text fn <;>
      simp [pythonExampleStep, h, ih]

/-! Claim theorems. -/

/-- C1 (amended): for code examples with language "python" and a status-200
fetch, the handler takes the first `max_examples` preformatted code blocks of
the fetched HTML and, among those, keeps exactly the blocks whose text
contains the requested function name as a case-sensitive literal substring —
so a non-matching block within the first `max_examples` blocks does consume a
slot; the title of each returned example is the stripped text of the nearest
preceding heading element of any level, or "Example" when no such heading
exists. -/
theorem get_code_examples_python_caps_then_filters
    (q : CodeExampleQuery) (soup : Soup)
    (hl : pyLower q.language = "python") :
    get_code_examples q (.resp 200 soup) =
      { library := q.library, function := q.function,
        examples := cappedPythonExamples q.function q.max_examples soup.selectPre,
        error := none } := by
  have hreg : dictGet CODE_EXAMPLE_SOURCES (pyLower q.language)
      = some "https://docs.python.org/3/search.html?q=\x7b\x7d&check_keywords=yes&area=default" := by
    rw [hl]
    rfl
  rw [get_code_examples_success q soup _ hreg]
  unfold codeExamplesOf
  rw [hl]
  simp only [if_pos rfl]
  rw [foldl_pythonExampleStep]
  rw [cappedPythonExamples]
  simp

/-- Closed instance of `get_code_examples_python_caps_then_filters` at the
fixture query and document. -/
theorem get_code_examples_python_caps_then_filters_witness :
    pyLower qCode.language = "python" ∧
    get_code_examples qCode (.resp 200 wSoup) =
      { library := qCode.library, function := qCode.function,
        examples := cappedPythonExamples qCode.function qCode.max_examples wSoup.selectPre,
        error := none } :=
  ⟨by decide, get_code_examples_python_caps_then_filters qCode wSoup (by decide)⟩

/-- C1 fails as stated: on a document whose `pre` blocks are a match, a
non-match and a match for "foo", with `max_examples = 2`, the handler returns
one example while the claimed filter-before-cap reading returns the two
matching blocks; the non-matching middle block does consume a slot. -/
theorem get_code_examples_python_counterexample :
    (get_code_examples qCode (.resp 200 wSoup)).examples.length = 1 ∧
    (specPythonExamples qCode.function qCode.max_examples wSoup.selectPre).length = 2 ∧
    (get_code_examples qCode (.resp 200 wSoup)).examples
      ≠ specPythonExamples qCode.function qCode.max_examples wSoup.selectPre := by
  refine ⟨by decide, by decide, by decide⟩

/-- C2 (amended): the documentation handler checks the cache first and returns
any entry stored under the key `library:term` before validating registry
membership; only on a cache miss does it validate the registry and then
fetch, and an unrecognized-library query whose cache key is absent from the
cache receives the unsupported-library error. -/
theorem search_documentation_cache_then_registry :
    (∀ (q : DocumentationQuery) (c : Cache) (f : Fetched) (r : DocumentationResult),
       Cache.get c (docCacheKey q) = some r →
       search_documentation q c f = (r, c)) ∧
    (∀ (q : DocumentationQuery) (c : Cache) (f : Fetched),
       Cache.get c (docCacheKey q) = none →
       dictGet DOC_SOURCES (pyLower q.library) = none →
       search_documentation q c f =
         ({ library := q.library, term := q.term, results := [],
            error := some ("Documentation for " ++ q.library ++ " is not available") }, c)) :=
  ⟨search_documentation_hit, search_documentation_noreg⟩

/-- Closed instance of `search_documentation_cache_then_registry`: a seeded
cache entry is returned without a fetch, and an unrecognized library with an
empty cache receives the unsupported-library error. -/
theorem search_documentation_cache_then_registry_witness :
    Cache.get [(docCacheKey qDoc, rFixture)] (docCacheKey qDoc) = some rFixture ∧
    search_documentation qDoc [(docCacheKey qDoc, rFixture)] (.exn "no net")
      = (rFixture, [(docCacheKey qDoc, rFixture)]) ∧
    dictGet DOC_SOURCES (pyLower "ruby") = none ∧
    search_documentation { library := "ruby", term := "x", max_results := some 5 } []
        (.exn "no net")
      = ({ library := "ruby", term := "x", results := [],
           error := some "Documentation for ruby is not available" }, []) :=
  ⟨by decide,
   search_documentation_cache_then_registry.1 qDoc [(docCacheKey qDoc, rFixture)]
     (.exn "no net") rFixture (by decide),
   by decide,
   search_documentation_cache_then_registry.2
     { library := "ruby", term := "x", max_results := some 5 } [] (.exn "no net")
     (by decide) (by decide)⟩

/-- C2 fails as stated: after one successful call for library "python" and
term "x:y", the reachable cache holds the key "python:x:y"; the query with
unrecognized library "python:x" and term "y" builds the same key, so the
handler returns the cached value of the other library instead of the
unsupported-library error, and the cache is consulted before the registry. -/
theorem search_documentation_cache_before_registry_counterexample :
    dictGet DOC_SOURCES (pyLower qColliding.library) = none ∧
    ReachableCache (search_documentation qColon [] (.resp 200 wSoup)).2 ∧
    (search_documentation qColliding
        (search_documentation qColon [] (.resp 200 wSoup)).2 (.exn "never fetched")).1
      = (search_documentation qColon [] (.resp 200 wSoup)).1 ∧
    (search_documentation qColliding
        (search_documentation qColon [] (.resp 200 wSoup)).2 (.exn "never fetched")).1.error
      = none :=
  ⟨by decide,
   ReachableCache.step qColon (.resp 200 wSoup) ReachableCache.nil,
   by decide,
   by decide⟩

/-- C3: on any fetch whose status is not exactly 200 (other 2xx included),
both handlers return an empty results/examples list and an error message
containing the original status code, and the documentation cache is left
unchanged. -/
theorem fetch_failure_empty_error_uncached :
    (∀ (q : DocumentationQuery) (c : Cache) (status : Nat) (soup : Soup),
       Cache.get c (docCacheKey q) = none →
       (dictGet DOC_SOURCES (pyLower q.library)).isSome →
       status ≠ 200 →
       (search_documentation q c (.resp status soup)).1.results = [] ∧
       (search_documentation q c (.resp status soup)).1.error
         = some ("Failed to fetch documentation: " ++ toString status) ∧
       strContainsSubstr ("Failed to fetch documentation: " ++ toString status)
         (toString status) = true ∧
       (search_documentation q c (.resp status soup)).2 = c) ∧
    (∀ (q : CodeExampleQuery) (status : Nat) (soup : Soup),
       (dictGet CODE_EXAMPLE_SOURCES (pyLower q.language)).isSome →
       status ≠ 200 →
       (get_code_examples q (.resp status soup)).examples = [] ∧
       (get_code_examples q (.resp status soup)).error
         = some ("Failed to fetch code examples: " ++ toString status) ∧
       strContainsSubstr ("Failed to fetch code examples: " ++ toString status)
         (toString status) = true) := by
  constructor
  · intro q c status soup hmiss hreg hstatus
    obtain ⟨u, hu⟩ := Option.isSome_iff_exists.mp hreg
    rw [search_documentation_badstatus q c status soup u hmiss hu hstatus]
    exact ⟨rfl, rfl, strContainsSubstr_append _ _, rfl⟩
  · intro q status soup hreg hstatus
    obtain ⟨t, ht⟩ := Option.isSome_iff_exists.mp hreg
    rw [get_code_examples_badstatus q status soup t ht hstatus]
    exact ⟨rfl, rfl, strContainsSubstr_append _ _⟩

/-- Closed instance of `fetch_failure_empty_error_uncached` at status 404 for
both handlers. -/
theorem fetch_failure_empty_error_uncached_witness :
    ((search_documentation qDoc [] (.resp 404 wSoup)).1.results = [] ∧
     (search_documentation qDoc [] (.resp 404 wSoup)).1.error
       = some ("Failed to fetch documentation: " ++ toString 404) ∧
     strContainsSubstr ("Failed to fetch documentation: " ++ toString 404)
       (toString 404) = true ∧
     (search_documentation qDoc [] (.resp 404 wSoup)).2 = []) ∧
    ((get_code_examples qCode (.resp 404 wSoup)).examples = [] ∧
     (get_code_examples qCode (.resp 404 wSoup)).error
       = some ("Failed to fetch code examples: " ++ toString 404) ∧
     strContainsSubstr ("Failed to fetch code examples: " ++ toString 404)
       (toString 404) = true) :=
  ⟨fetch_failure_empty_error_uncached.1 qDoc [] 404 wSoup (by decide) (by decide) (by decide),
   fetch_failure_empty_error_uncached.2 qCode 404 wSoup (by decide) (by decide)⟩

/-- C4: a cache hit returns the stored entry unchanged, independent of any
fetch outcome; consequently, after one successful (status-200) call from a
cache-miss state, an identical second call returns the same result object and
cache, again independent of its fetch argument (zero additional fetches). -/
theorem cache_hit_short_circuits :
    (∀ (q : DocumentationQuery) (c : Cache) (r : DocumentationResult),
       Cache.get c (docCacheKey q) = some r →
       ∀ f : Fetched, search_documentation q c f = (r, c)) ∧
    (∀ (q : DocumentationQuery) (c : Cache) (soup : Soup) (u : String),
       Cache.get c (docCacheKey q) = none →
       dictGet DOC_SOURCES (pyLower q.library) = some u →
       ∀ f2 : Fetched,
         search_documentation q (search_documentation q c (.resp 200 soup)).2 f2
           = ((search_documentation q c (.resp 200 soup)).1,
              (search_documentation q c (.resp 200 soup)).2)) := by
  constructor
  · intro q c r h f
    exact search_documentation_hit q c f r h
  · intro q c soup u hmiss hreg f2
    rw [search_documentation_success q c soup u hmiss hreg]
    exact search_documentation_hit q _ f2 _ (Cache.get_cons_self c _ _)

/-- Closed instance of `cache_hit_short_circuits`: a seeded hit is returned
as-is, and a second identical call after a successful first call returns the
result of the first call even when its own fetch would fail. -/
theorem cache_hit_short_circuits_witness :
    search_documentation qDoc [(docCacheKey qDoc, rFixture)] (.resp 404 wSoup)
      = (rFixture, [(docCacheKey qDoc, rFixture)]) ∧
    search_documentation qDoc (search_documentation qDoc [] (.resp 200 wSoup)).2
        (.exn "never fetched")
      = ((search_documentation qDoc [] (.resp 200 wSoup)).1,
         (search_documentation qDoc [] (.resp 200 wSoup)).2) :=
  ⟨cache_hit_short_circuits.1 qDoc [(docCacheKey qDoc, rFixture)] rFixture (by decide)
     (.resp 404 wSoup),
   cache_hit_short_circuits.2 qDoc [] wSoup "https://docs.python.org/3/" (by decide)
     (by decide) (.exn "never fetched")⟩

/-- C5: an unrecognized library with an empty cache receives the
unsupported-library error and an empty results list, and an unrecognized
language receives the unsupported-language error and an empty examples list,
in both cases with an outcome independent of the fetch argument (no network
call) and an unchanged cache. -/
theorem unsupported_key_no_fetch :
    (∀ (q : DocumentationQuery) (f : Fetched),
       dictGet DOC_SOURCES (pyLower q.library) = none →
       search_documentation q [] f =
         ({ library := q.library, term := q.term, results := [],
            error := some ("Documentation for " ++ q.library ++ " is not available") }, [])) ∧
    (∀ (q : CodeExampleQuery) (f : Fetched),
       dictGet CODE_EXAMPLE_SOURCES (pyLower q.language) = none →
       get_code_examples q f =
         { library := q.library, function := q.function, examples := [],
           error := some ("Code examples for " ++ pyLower q.language
             ++ " are not available") }) := by
  constructor
  · intro q f hreg
    exact search_documentation_noreg q [] f rfl hreg
  · intro q f hreg
    exact get_code_examples_noreg q f hreg

/-- Closed instance of `unsupported_key_no_fetch` for library "ruby" and
language "rust". -/
theorem unsupported_key_no_fetch_witness :
    search_documentation { library := "ruby", term := "gc", max_results := some 5 } []
        (.resp 200 wSoup)
      = ({ library := "ruby", term := "gc", results := [],
           error := some "Documentation for ruby is not available" }, []) ∧
    get_code_examples
        { library := "ruby", function := "spawn", language := "rust",
          max_examples := some 3 } (.resp 200 wSoup)
      = { library := "ruby", function := "spawn", examples := [],
          error := some "Code examples for rust are not available" } :=
  ⟨unsupported_key_no_fetch.1 { library := "ruby", term := "gc", max_results := some 5 }
     (.resp 200 wSoup) (by decide),
   unsupported_key_no_fetch.2
     { library := "ruby", function := "spawn", language := "rust",
       max_examples := some 3 } (.resp 200 wSoup) (by decide)⟩

/-- C6: with a non-negative `max_results` (resp. `max_examples`), any call
that reaches the fetch-extract pipeline (cache miss on the documentation
path) returns at most that many results (resp. examples), whatever the fetch
outcome and however many matching elements the document holds. -/
theorem results_capped :
    (∀ (q : DocumentationQuery) (c : Cache) (f : Fetched) (n : Int),
       q.max_results = some n → 0 ≤ n →
       Cache.get c (docCacheKey q) = none →
       (((search_documentation q c f).1.results).length : Int) ≤ n) ∧
    (∀ (q : CodeExampleQuery) (f : Fetched) (n : Int),
       q.max_examples = some n → 0 ≤ n →
       (((get_code_examples q f).examples).length : Int) ≤ n) := by
  constructor
  · intro q c f n hmax hn hmiss
    cases hreg : dictGet DOC_SOURCES (pyLower q.library) with
    | none =>
      rw [search_documentation_noreg q c f hmiss hreg]
      simpa using hn
    | some u =>
      cases f with
      | exn m =>
        rw [search_documentation_exn q c m u hmiss hreg]
        simpa using hn
      | resp status soup =>
        by_cases hstatus : status = 200
        · subst hstatus
          rw [search_documentation_success q c soup u hmiss hreg]
          exact docResults_length_le q soup n hmax hn
        · rw [search_documentation_badstatus q c status soup u hmiss hreg hstatus]
          simpa using hn
  · intro q f n hmax hn
    cases hreg : dictGet CODE_EXAMPLE_SOURCES (pyLower q.language) with
    | none =>
      rw [get_code_examples_noreg q f hreg]
      simpa using hn
    | some t =>
      cases f with
      | exn m =>
        rw [get_code_examples_exn q m t hreg]
        simpa using hn
      | resp status soup =>
        by_cases hstatus : status = 200
        · subst hstatus
          rw [get_code_examples_success q soup t hreg]
          exact codeExamplesOf_length_le q soup n hmax hn
        · rw [get_code_examples_badstatus q status soup t hreg hstatus]
          simpa using hn

/-- Closed instance of `results_capped`: the fixture document has three python
items but `max_results = 2` returns at most two, and three `pre` blocks with
`max_examples = 2` return at most two examples. -/
theorem results_capped_witness :
    (((search_documentation { library := "python", term := "list", max_results := some 2 }
        [] (.resp 200 wSoup)).1.results).length : Int) ≤ 2 ∧
    (((get_code_examples qCode (.resp 200 wSoup)).examples).length : Int) ≤ 2 :=
  ⟨results_capped.1 { library := "python", term := "list", max_results := some 2 } []
     (.resp 200 wSoup) 2 rfl (by decide) (by decide),
   results_capped.2 qCode (.resp 200 wSoup) 2 rfl (by decide)⟩

/-- C7: both handlers always return a well-formed result value (they are total
functions of the query and fetch outcome); whenever the error field is
populated the results/examples list is empty (over reachable cache states for
the documentation path), and on the fetch-exception path the error is exactly
the description of the underlying fault. -/
theorem handler_always_normalizes :
    (∀ (q : DocumentationQuery) (c : Cache) (f : Fetched),
       ReachableCache c →
       (search_documentation q c f).1.error ≠ none →
       (search_documentation q c f).1.results = []) ∧
    (∀ (q : DocumentationQuery) (c : Cache) (m u : String),
       Cache.get c (docCacheKey q) = none →
       dictGet DOC_SOURCES (pyLower q.library) = some u →
       (search_documentation q c (.exn m)).1.error = some m ∧
       (search_documentation q c (.exn m)).1.results = []) ∧
    (∀ (q : CodeExampleQuery) (f : Fetched),
       (get_code_examples q f).error ≠ none →
       (get_code_examples q f).examples = []) ∧
    (∀ (q : CodeExampleQuery) (m t : String),
       dictGet CODE_EXAMPLE_SOURCES (pyLower q.language) = some t →
       (get_code_examples q (.exn m)).error = some m ∧
       (get_code_examples q (.exn m)).examples = []) := by
  refine ⟨?_, ?_, ?_, ?_⟩
  · intro q c f hreach hne
    cases hget : Cache.get c (docCacheKey q) with
    | some r =>
      rw [search_documentation_hit q c f r hget] at hne ⊢
      exact absurd (reachable_cache_get hreach (docCacheKey q) r hget) hne
    | none =>
      cases hreg : dictGet DOC_SOURCES (pyLower q.library) with
      | none => rw [search_documentation_noreg q c f hget hreg]
      | some u =>
        cases f with
        | exn m => rw [search_documentation_exn q c m u hget hreg]
        | resp status soup =>
          by_cases hstatus : status = 200
          · subst hstatus
            rw [search_documentation_success q c soup u hget hreg] at hne
            exact absurd rfl hne
          · rw [search_documentation_badstatus q c status soup u hget hreg hstatus]
  · intro q c m u hget hreg
    rw [search_documentation_exn q c m u hget hreg]
    exact ⟨rfl, rfl⟩
  · intro q f hne
    cases hreg : dictGet CODE_EXAMPLE_SOURCES (pyLower q.language) with
    | none => rw [get_code_examples_noreg q f hreg]
    | some t =>
      cases f with
      | exn m => rw [get_code_examples_exn q m t hreg]
      | resp status soup =>
        by_cases hstatus : status = 200
        · subst hstatus
          rw [get_code_examples_success q soup t hreg] at hne
          exact absurd rfl hne
        · rw [get_code_examples_badstatus q status soup t hreg hstatus]
  · intro q m t hreg
    rw [get_code_examples_exn q m t hreg]
    exact ⟨rfl, rfl⟩

/-- Closed instance of `handler_always_normalizes`: a failed documentation
fetch over the empty cache yields empty results, and a fetch exception on the
code-example path surfaces its message with empty examples. -/
theorem handler_always_normalizes_witness :
    (search_documentation qDoc [] (.resp 404 wSoup)).1.results = [] ∧
    ((get_code_examples qCode (.exn "boom")).error = some "boom" ∧
     (get_code_examples qCode (.exn "boom")).examples = []) :=
  ⟨handler_always_normalizes.1 qDoc [] (.resp 404 wSoup) ReachableCache.nil (by decide),
   handler_always_normalizes.2.2.2 qCode "boom"
     "https://docs.python.org/3/search.html?q=\x7b\x7d&check_keywords=yes&area=default"
     (by decide)⟩

/-- C8: a recognized documentation library other than python and javascript
on a status-200 fetch yields zero records with no error set, and a recognized
code-example language other than python yields zero examples with no error —
both distinct from the unsupported-key error outcome. -/
theorem recognized_without_strategy_zero_records :
    (∀ (q : DocumentationQuery) (c : Cache) (soup : Soup) (u : String),
       Cache.get c (docCacheKey q) = none →
       dictGet DOC_SOURCES (pyLower q.library) = some u →
       pyLower q.library ≠ "python" →
       pyLower q.library ≠ "javascript" →
       (search_documentation q c (.resp 200 soup)).1.results = [] ∧
       (search_documentation q c (.resp 200 soup)).1.error = none) ∧
    (∀ (q : CodeExampleQuery) (soup : Soup) (t : String),
       dictGet CODE_EXAMPLE_SOURCES (pyLower q.language) = some t →
       pyLower q.language ≠ "python" →
       (get_code_examples q (.resp 200 soup)).examples = [] ∧
       (get_code_examples q (.resp 200 soup)).error = none) := by
  constructor
  · intro q c soup u hmiss hreg hnp hnj
    rw [search_documentation_success q c soup u hmiss hreg]
    refine ⟨?_, rfl⟩
    unfold docResults
    rw [if_neg hnp, if_neg hnj]
  · intro q soup t hreg hnp
    rw [get_code_examples_success q soup t hreg]
    refine ⟨?_, rfl⟩
    unfold codeExamplesOf
    rw [if_neg hnp]

/-- Closed instance of `recognized_without_strategy_zero_records` for library
"nodejs" and language "javascript" on a document full of extractable
content. -/
theorem recognized_without_strategy_zero_records_witness :
    ((search_documentation { library := "nodejs", term := "fs", max_results := some 5 } []
        (.resp 200 wSoup)).1.results = [] ∧
     (search_documentation { library := "nodejs", term := "fs", max_results := some 5 } []
        (.resp 200 wSoup)).1.error = none) ∧
    ((get_code_examples
        { library := "javascript", function := "map", language := "javascript",
          max_examples := some 3 } (.resp 200 wSoup)).examples = [] ∧
     (get_code_examples
        { library := "javascript", function := "map", language := "javascript",
          max_examples := some 3 } (.resp 200 wSoup)).error = none) :=
  ⟨recognized_without_strategy_zero_records.1
     { library := "nodejs", term := "fs", max_results := some 5 } [] wSoup
     "https://nodejs.org/api/" (by decide) (by decide) (by decide) (by decide),
   recognized_without_strategy_zero_records.2
     { library := "javascript", function := "map", language := "javascript",
       max_examples := some 3 } wSoup
     "https://developer.mozilla.org/en-US/search?q=\x7b\x7d" (by decide) (by decide)⟩

/-- C9: every entry of every reachable documentation cache carries no error
and a library that, lowercased, is a registry key; and the cache changes only
when the fetch returned status 200, in which case the call prepends its own
error-free result under its own key. -/
theorem cache_content_invariant :
    (∀ (c : Cache), ReachableCache c →
       ∀ p ∈ c, p.2.error = none ∧ (dictGet DOC_SOURCES (pyLower p.2.library)).isSome) ∧
    (∀ (q : DocumentationQuery) (c : Cache) (f : Fetched),
       (search_documentation q c f).2 ≠ c →
       ∃ soup, f = Fetched.resp 200 soup ∧
         (search_documentation q c f).2
           = (docCacheKey q, (search_documentation q c f).1) :: c ∧
         (search_documentation q c f).1.error = none) := by
  constructor
  · intro c h
    exact reachable_cache_entries h
  · intro q c f hne
    rcases search_documentation_shape q c f with hc | ⟨soup, hf, hres, hcache, _⟩
    · exact absurd hc hne
    · exact ⟨soup, hf, hcache, by rw [hres]⟩

/-- Closed instance of `cache_content_invariant`: the entry stored by a
successful fixture call carries no error and a registered library. -/
theorem cache_content_invariant_witness :
    rStored.error = none ∧ (dictGet DOC_SOURCES (pyLower rStored.library)).isSome :=
  cache_content_invariant.1 (search_documentation qDoc [] (.resp 200 wSoup)).2
    (ReachableCache.step qDoc (.resp 200 wSoup) ReachableCache.nil)
    (docCacheKey qDoc, rStored) (by decide)

/-- C10: the cache key preserves the letter-case of the library while registry
lookup lowercases it: two recognized-library queries differing only in the
case of the library populate distinct cache entries; the second query misses
the entry of the first query, computes its result from its own fetch exactly as it
would over a cache without the first entry, and afterwards both entries
coexist. -/
theorem case_sensitive_cache_keys
    (q1 q2 : DocumentationQuery) (c : Cache) (s1 s2 : Soup) (u : String)
    (hlib : q1.library ≠ q2.library)
    (hlow : pyLower q1.library = pyLower q2.library)
    (hterm : q1.term = q2.term)
    (hreg : dictGet DOC_SOURCES (pyLower q1.library) = some u)
    (hm1 : Cache.get c (docCacheKey q1) = none)
    (hm2 : Cache.get c (docCacheKey q2) = none) :
    docCacheKey q1 ≠ docCacheKey q2 ∧
    Cache.get (search_documentation q1 c (.resp 200 s1)).2 (docCacheKey q1)
      = some (search_documentation q1 c (.resp 200 s1)).1 ∧
    Cache.get (search_documentation q1 c (.resp 200 s1)).2 (docCacheKey q2) = none ∧
    (search_documentation q2 (search_documentation q1 c (.resp 200 s1)).2 (.resp 200 s2)).1
      = (search_documentation q2 c (.resp 200 s2)).1 ∧
    Cache.get
        (search_documentation q2 (search_documentation q1 c (.resp 200 s1)).2 (.resp 200 s2)).2
        (docCacheKey q2)
      = some (search_documentation q2
          (search_documentation q1 c (.resp 200 s1)).2 (.resp 200 s2)).1 ∧
    Cache.get
        (search_documentation q2 (search_documentation q1 c (.resp 200 s1)).2 (.resp 200 s2)).2
        (docCacheKey q1)
      = some (search_documentation q1 c (.resp 200 s1)).1 := by
  have hkey := docCacheKey_ne_of_library_ne q1 q2 hlib hterm
  have hreg2 : dictGet DOC_SOURCES (pyLower q2.library) = some u := by
    rw [← hlow]
    exact hreg
  have hcall1 := search_documentation_success q1 c s1 u hm1 hreg
  have hm2' : Cache.get
      ((docCacheKey q1,
        { library := q1.library, term := q1.term, results := docResults q1 s1,
          error := none }) :: c) (docCacheKey q2) = none := by
    rw [Cache.get_cons_ne c _ _ _ hkey]
    exact hm2
  have hcall2 := search_documentation_success q2
    ((docCacheKey q1,
      { library := q1.library, term := q1.term, results := docResults q1 s1,
        error := none }) :: c) s2 u hm2' hreg2
  have hcall2' := search_documentation_success q2 c s2 u hm2 hreg2
  refine ⟨hkey, ?_, ?_, ?_, ?_, ?_⟩
  · simp only [hcall1]
    exact Cache.get_cons_self c _ _
  · simp only [hcall1]
    exact hm2'
  · simp only [hcall1, hcall2, hcall2']
  · simp only [hcall1, hcall2]
    exact Cache.get_cons_self _ _ _
  · simp only [hcall1, hcall2]
    rw [Cache.get_cons_ne _ _ _ _ (Ne.symm hkey)]
    exact Cache.get_cons_self c _ _

/-- Closed instance of `case_sensitive_cache_keys` for "Python" versus
"python" with term "list". -/
theorem case_sensitive_cache_keys_witness :
    docCacheKey qUpper ≠ docCacheKey qDoc ∧
    Cache.get (search_documentation qUpper [] (.resp 200 wSoup)).2 (docCacheKey qUpper)
      = some (search_documentation qUpper [] (.resp 200 wSoup)).1 ∧
    Cache.get (search_documentation qUpper [] (.resp 200 wSoup)).2 (docCacheKey qDoc) = none ∧
    (search_documentation qDoc (search_documentation qUpper [] (.resp 200 wSoup)).2
        (.resp 200 wSoup)).1
      = (search_documentation qDoc [] (.resp 200 wSoup)).1 ∧
    Cache.get
        (search_documentation qDoc (search_documentation qUpper [] (.resp 200 wSoup)).2
          (.resp 200 wSoup)).2
        (docCacheKey qDoc)
      = some (search_documentation qDoc
          (search_documentation qUpper [] (.resp 200 wSoup)).2 (.resp 200 wSoup)).1 ∧
    Cache.get
        (search_documentation qDoc (search_documentation qUpper [] (.resp 200 wSoup)).2
          (.resp 200 wSoup)).2
        (docCacheKey qUpper)
      = some (search_documentation qUpper [] (.resp 200 wSoup)).1 :=
  case_sensitive_cache_keys qUpper qDoc [] wSoup wSoup "https://docs.python.org/3/"
    (by decide) (by decide) (by decide) (by decide) (by decide) (by decide)

end DocsMcp
